import Mathlib

/-!
Verification development for the Shopee hidden-price solver (`src/app.py`).

The program stores orders (a set of (SKU, quantity) line items plus one
bundled total) per sales site in Supabase tables, and infers per-unit SKU
prices by iterative substitution with conflict detection.

Shallow embedding conventions:
* Python floats are modelled as exact rationals (`ℚ`);
* Python dicts are modelled as insertion-ordered association lists
  (`List (String × _)`), with `dinsert` for `d[k] = v` and `alookup`
  for `d[k]` / `k in d`;
* the Supabase tables are modelled as in-memory lists of rows, and the
  per-site `select ... eq('site', s)` queries as list filters;
* the iteration-capped `while` loop of `SiteSolver._solve_logic` is
  modelled with explicit fuel (the cap is 50);
* Python set iteration order is unspecified, so `list(set(...))` is
  modelled by dedup; only membership and emptiness of these lists are
  stated in the theorems.
-/

namespace ShopeeTool

/-- Association-list lookup: Python `d[k]` and `k in d`.  All dicts built in
this development have unique keys, so first-match lookup is the dict value. -/
def alookup (k : String) : List (String × α) → Option α
  | [] => none
  | (k1, v) :: rest => if k1 = k then some v else alookup k rest

/-- Python dict assignment `d[k] = v`: replace the value in place if the key
exists, otherwise append the pair (dict insertion order). -/
def dinsert (k : String) (v : α) : List (String × α) → List (String × α)
  | [] => [(k, v)]
  | (k1, v1) :: rest => if k1 = k then (k, v) :: rest else (k1, v1) :: dinsert k v rest

/-- Python `dict(pairs)` / a dict comprehension over a pair list: later
occurrences of a key overwrite earlier ones, first position kept. -/
def dictOf (l : List (String × α)) : List (String × α) :=
  l.foldl (fun d kv => dinsert kv.1 kv.2 d) []

/-- A row of the `orders` table: `site`, `order_id`, `total_hidden_price`,
`created_at` (the server timestamp is carried as an opaque string). -/
structure OrderRow where
  site : String
  order_id : String
  total_hidden_price : ℚ
  created_at : String
deriving DecidableEq

/-- A row of the `order_items` table: one line item of one order. -/
structure ItemRow where
  site : String
  order_id : String
  sku : String
  quantity : ℤ
deriving DecidableEq

/-- A row of the `manual_prices` table (a Manual Override, keyed by
(site, sku)). -/
structure ManualRow where
  site : String
  sku : String
  manual_price : ℚ
deriving DecidableEq

/-- One Conflict entry (`conflict_info` in `_solve_logic`).  The `equation`
f-string is carried structurally as its coefficient, SKU and right-hand
side (`eqQty`, `eqSku`, `eqRhs`). -/
structure ConflictInfo where
  value : ℚ
  derived_from : String
  eqQty : ℤ
  eqSku : String
  eqRhs : ℚ
  current : ℚ
  current_src : String
  ctype : String
deriving DecidableEq

/-- One Underdetermined Constraint (lines 209-213).  The rendered equation
`"q×sku + ... = remaining"` is carried structurally by `terms` (the
`unknown_terms` list of (quantity, sku) pairs) and `remaining`. -/
structure Constraint where
  order_id : String
  terms : List (ℤ × String)
  remaining : ℚ
  missing_skus : List String
deriving DecidableEq

/-- One entry of `order_map` (lines 116-119): an order id, its total, and the
item rows attached to it. -/
structure OrderEntry where
  oid : String
  total : ℚ
  o_items : List ItemRow
deriving DecidableEq

/-- Construction of `order_map` (lines 116-119): a dict keyed by `order_id`
whose totals come from the orders rows (a duplicate id overwrites the total,
keeping the first position), and whose item bucket collects, in item order,
every item row carrying that order id. -/
def orderEntries (orders : List OrderRow) (items : List ItemRow) : List OrderEntry :=
  let totals := dictOf (orders.map (fun o => (o.order_id, o.total_hidden_price)))
  totals.map (fun kv => ⟨kv.1, kv.2, items.filter (fun it => decide (it.order_id = kv.1))⟩)

/-- The mutable solver state threaded through a pass: the `determined` dict,
the `conflicts` dict (SKU → list of conflict entries) and the `changed`
flag. -/
structure SolveState where
  determined : List (String × ℚ)
  conflicts : List (String × List ConflictInfo)
  changed : Bool
deriving DecidableEq

/-- Lines 136-143: the contribution of already-known SKUs to an order
(`known_sum`), folded over the line items in order. -/
def knownSum (det : List (String × ℚ)) (o_items : List ItemRow) : ℚ :=
  o_items.foldl
    (fun s it =>
      match alookup it.sku det with
      | some v => s + it.quantity * v
      | none => s) 0

/-- Lines 136-145: the still-unknown line items of an order, as
(sku, quantity) pairs in item order (`unknown_items`). -/
def unknownItems (det : List (String × ℚ)) (o_items : List ItemRow) :
    List (String × ℤ) :=
  (o_items.filter (fun it => (alookup it.sku det).isNone)).map
    (fun it => (it.sku, it.quantity))

/-- Lines 155-166 and 179-190: conflict recording.  If the SKU has no bucket
yet an empty one is created; the new entry is appended only when its value
differs by at least 0.01 from every value already in the bucket
(`if not any(abs(c.value - v) < 0.01 ...)`). -/
def addConflict (cs : List (String × List ConflictInfo)) (sku : String)
    (c : ConflictInfo) : List (String × List ConflictInfo) :=
  let cs1 := if (alookup sku cs).isSome then cs else dinsert sku [] cs
  let old := (alookup sku cs1).getD []
  if old.any (fun e => decide (|e.value - c.value| < 1/100)) then cs1
  else dinsert sku (old ++ [c]) cs1

/-- Lines 149-167: the zero-unknowns branch.  When the remaining amount is
off by more than 0.01 and the order has exactly one line item, an
`order_mismatch` Conflict entry is recorded against that SKU (the implied
price is `total / quantity`, or 0 for a zero quantity).  Orders with several
line items are NOT recorded anywhere (the `inconsistent_orders` list is
never appended to). -/
def processZero (st : SolveState) (e : OrderEntry) : SolveState :=
  let remaining := e.total - knownSum st.determined e.o_items
  if 1/100 < |remaining| then
    match e.o_items with
    | [it] =>
      let implied : ℚ := if it.quantity ≠ 0 then e.total / (it.quantity : ℚ) else 0
      { st with
        conflicts := addConflict st.conflicts it.sku
          ⟨implied, e.oid, it.quantity, it.sku, e.total,
            (alookup it.sku st.determined).getD 0, "已确定值", "order_mismatch"⟩ }
    | _ => st
  else st

/-- Lines 169-193: the one-unknown branch.  The value is
`remaining / quantity` (0 for a zero quantity); if the SKU were already
known and differed by more than 0.01 a `derivation_conflict` entry would be
recorded without overwriting, otherwise the value is adopted and the pass
marked changed.  (The conflict sub-branch is unreachable: an item collected
as unknown has no entry in `determined`.) -/
def processOne (st : SolveState) (e : OrderEntry) (sku : String) (qty : ℤ) :
    SolveState :=
  let remaining := e.total - knownSum st.determined e.o_items
  let val : ℚ := if qty = 0 then 0 else remaining / (qty : ℚ)
  match alookup sku st.determined with
  | some old_val =>
    if 1/100 < |old_val - val| then
      { st with
        conflicts := addConflict st.conflicts sku
          ⟨val, e.oid, qty, sku, remaining, old_val, "之前确定", "derivation_conflict"⟩ }
    else st
  | none => { st with determined := dinsert sku val st.determined, changed := true }

/-- Lines 132-193: processing of one order inside a pass, dispatching on the
number of still-unknown line items (two or more: no conclusion). -/
def processOrder (st : SolveState) (e : OrderEntry) : SolveState :=
  match unknownItems st.determined e.o_items with
  | [] => processZero st e
  | [(sku, qty)] => processOne st e sku qty
  | _ => st

/-- One full pass of the `while` loop body over all orders (lines 132-193). -/
def solvePass (entries : List OrderEntry) (st : SolveState) : SolveState :=
  entries.foldl processOrder st

/-- Lines 126-193: the iteration-capped loop, `while changed and
iteration < 50`; each round clears the `changed` flag, runs a pass, and
continues only when the pass changed something. -/
def solveLoop (entries : List OrderEntry) : ℕ → SolveState → SolveState
  | 0, st => st
  | fuel + 1, st =>
    let st1 := solvePass entries { st with changed := false }
    if st1.changed then solveLoop entries fuel st1 else st1

/-- Lines 199-213: one Underdetermined Constraint per order that still has
two or more unknown line items, built from the final `determined` dict. -/
def mkConstraints (entries : List OrderEntry) (det : List (String × ℚ)) :
    List Constraint :=
  entries.filterMap (fun e =>
    let known_sum := knownSum det e.o_items
    let unknown_terms : List (ℤ × String) :=
      (e.o_items.filter (fun it => (alookup it.sku det).isNone)).map
        (fun it => (it.quantity, it.sku))
    let remaining := e.total - known_sum
    if 2 ≤ unknown_terms.length then
      some ⟨e.oid, unknown_terms, remaining, unknown_terms.map (fun t => t.2)⟩
    else none)

/-- The six-component result of `_solve_logic` (line 215).  The sixth
component mirrors `inconsistent_orders`, which the source initialises and
returns but never appends to; it is carried as a list of order ids. -/
structure SolveResult where
  determined : List (String × ℚ)
  conflicts : List (String × List ConflictInfo)
  constraints : List Constraint
  underdetermined : List String
  orders : List OrderRow
  inconsistent : List String
deriving DecidableEq

/-- `SiteSolver._solve_logic` (lines 115-215): seed `determined` with the
manual overrides, iterate substitution to a fixpoint (cap 50), then compute
the underdetermined SKU set and the constraints (only when some SKU is
still underdetermined, line 198). -/
def solveLogic (orders : List OrderRow) (items : List ItemRow)
    (manual_prices : List (String × ℚ)) : SolveResult :=
  let entries := orderEntries orders items
  let all_skus := (items.map (fun it => it.sku)).dedup
  let st := solveLoop entries 50 ⟨dictOf manual_prices, [], true⟩
  let underdetermined := all_skus.filter (fun s => (alookup s st.determined).isNone)
  let constraints := if underdetermined = [] then [] else mkConstraints entries st.determined
  ⟨st.determined, st.conflicts, constraints, underdetermined, orders, []⟩

/-- The three Supabase tables the solver reads and writes. -/
structure DB where
  orders : List OrderRow
  order_items : List ItemRow
  manual_prices : List ManualRow
deriving DecidableEq

/-- `SymbolicSolver.get_site_data` (lines 98-103): the three tables filtered
by the site key, the manual rows collapsed to a sku → price dict. -/
def get_site_data (db : DB) (site : String) :
    List OrderRow × List ItemRow × List (String × ℚ) :=
  let orders := db.orders.filter (fun r => decide (r.site = site))
  let items := db.order_items.filter (fun r => decide (r.site = site))
  let manual := db.manual_prices.filter (fun r => decide (r.site = site))
  (orders, items, dictOf (manual.map (fun m => (m.sku, m.manual_price))))

/-- `SiteSolver.solve` (lines 109-113): empty result when the site has no
orders, otherwise `_solve_logic` on the site's data. -/
def solve (db : DB) (site : String) : SolveResult :=
  let d := get_site_data db site
  if d.1 = [] then ⟨[], [], [], [], [], []⟩ else solveLogic d.1 d.2.1 d.2.2

/-- Python `str.upper()`, modelled character-wise over the string's data
(`String.toUpper` itself is not reducible in proofs). -/
def pyUpper (s : String) : String := ⟨s.data.map Char.toUpper⟩

/-- Python `str.strip()`: whitespace dropped from both ends. -/
def pyStrip (s : String) : String :=
  ⟨((s.data.dropWhile Char.isWhitespace).reverse.dropWhile Char.isWhitespace).reverse⟩

/-- One line-item row of an order submission (`items` argument of
`add_order`; `qty` is already an integer, mirroring `int(item['qty'])`). -/
structure InputItem where
  sku : String
  qty : ℤ
deriving DecidableEq

/-- `SymbolicSolver.add_order` (lines 57-77): reject when an (site, order_id)
row already exists; otherwise insert the order row and one `order_items` row
per line item with a non-empty SKU (SKU upper-cased then trimmed), and
report success.  `now` stands for `datetime.now().isoformat()`. -/
def add_order (db : DB) (site order_id : String) (total : ℚ)
    (items : List InputItem) (now : String) : DB × Bool × String :=
  if (db.orders.filter (fun r => decide (r.site = site ∧ r.order_id = order_id))) ≠ [] then
    (db, false, "订单号已存在")
  else
    let db1 : DB := { db with orders := db.orders ++ [⟨site, order_id, total, now⟩] }
    let batch := (items.filter (fun it => decide (it.sku ≠ ""))).map
      (fun it => ItemRow.mk site order_id (pyStrip (pyUpper it.sku)) it.qty)
    let db2 : DB :=
      if batch ≠ [] then { db1 with order_items := db1.order_items ++ batch } else db1
    (db2, true, "保存成功")

/-- Whether the second list of characters starts with the first. -/
def leadsWith : List Char → List Char → Bool
  | [], _ => true
  | _ :: _, [] => false
  | a :: as, b :: bs => decide (a = b) && leadsWith as bs

/-- Whether `needle` occurs as a contiguous run inside the list. -/
def hasSub (needle : List Char) : List Char → Bool
  | [] => leadsWith needle []
  | c :: t => leadsWith needle (c :: t) || hasSub needle t

/-- Python's `sub in s` substring test on strings. -/
def containsSubstr (s sub : String) : Bool :=
  hasSub sub.toList s.toList

/-- Line 20: the transient-connectivity match on the exception message. -/
def isTransient (msg : String) : Bool :=
  containsSubstr msg "Resource temporarily unavailable" || containsSubstr msg "Errno 11"

/-- The process-wide cached client handle (`SupabaseManager._client`); the
concrete client object is abstracted as a number. -/
structure MgrState where
  client : Option ℕ
deriving DecidableEq

/-- Observable behaviour of one run of the `retry_on_error` wrapper:
the returned/raised outcome (`none` models the `return None` fall-through,
reachable only with `max_retries = 0`), the sleeps performed in order, and
the number of attempts made. -/
structure RetryOutcome (α : Type) where
  result : Option (Except String α)
  sleeps : List ℚ
  attempts : ℕ

/-- Lines 14-26: the retry loop.  The wrapped callable is modelled as a
function from the attempt index to that attempt's outcome (`Except.error`
models a raised exception).  A transient error on a non-final attempt sleeps
`delay * (attempt + 1)` and continues; any other error is re-raised. -/
def retryAux (f : ℕ → Except String α) (delay : ℚ) (maxRetries : ℕ) :
    ℕ → ℕ → RetryOutcome α
  | _, 0 => ⟨none, [], 0⟩
  | attempt, fuel + 1 =>
    match f attempt with
    | .ok a => ⟨some (.ok a), [], 1⟩
    | .error e =>
      if isTransient e && decide (attempt < maxRetries - 1) then
        let rest := retryAux f delay maxRetries (attempt + 1) fuel
        ⟨rest.result, delay * ((attempt : ℚ) + 1) :: rest.sleeps, rest.attempts + 1⟩
      else ⟨some (.error e), [], 1⟩

/-- `retry_on_error(max_retries, delay)` applied to a callable: run the
attempt loop from attempt 0. -/
def retry_on_error (maxRetries : ℕ) (delay : ℚ) (f : ℕ → Except String α) :
    RetryOutcome α :=
  retryAux f delay maxRetries 0 maxRetries

/-- A decorated persistence call together with the cached client handle.
The wrapper body (lines 14-26) contains no reference to `SupabaseManager`;
in particular `SupabaseManager.reset` (lines 43-45) is never invoked
anywhere in the program, so the cached handle passes through unchanged. -/
def wrappedCall (mgr : MgrState) (maxRetries : ℕ) (delay : ℚ)
    (f : ℕ → Except String α) : MgrState × RetryOutcome α :=
  (mgr, retry_on_error maxRetries delay f)

/-- Concrete data: the two-order exact system `{A:1,B:1} = 30`,
`{A:1} = 10` on one site. -/
def twoOrderDB : DB :=
  ⟨[⟨"S", "O1", 30, "t1"⟩, ⟨"S", "O2", 10, "t2"⟩],
   [⟨"S", "O1", "A", 1⟩, ⟨"S", "O1", "B", 1⟩, ⟨"S", "O2", "A", 1⟩], []⟩

/-- Concrete data: the single underdetermined order `{C:2,D:1} = 100`. -/
def underDB : DB :=
  ⟨[⟨"S", "O1", 100, "t1"⟩], [⟨"S", "O1", "C", 2⟩, ⟨"S", "O1", "D", 1⟩], []⟩

/-- Concrete data: a manual override `E = 12` together with an order
`{E:1} = 10` that contradicts it. -/
def overrideDB : DB :=
  ⟨[⟨"S", "O1", 10, "t1"⟩], [⟨"S", "O1", "E", 1⟩], [⟨"S", "E", 12⟩]⟩

/-- Concrete data: a manual override `E = 12` with two contradicting
single-item orders whose implied prices 10 and 10.01 differ by exactly the
0.01 tolerance. -/
def toleranceDB : DB :=
  ⟨[⟨"S", "O1", 10, "t1"⟩, ⟨"S", "O2", 1001/100, "t2"⟩],
   [⟨"S", "O1", "E", 1⟩, ⟨"S", "O2", "E", 1⟩], [⟨"S", "E", 12⟩]⟩

/-- Concrete data: orders pinning `A = 10` and `B = 20` plus a third order
`{A:1,B:1} = 50` whose known prices sum to 30, not 50 (an internally
inconsistent multi-item order). -/
def mismatchDB : DB :=
  ⟨[⟨"S", "O1", 10, "t1"⟩, ⟨"S", "O2", 20, "t2"⟩, ⟨"S", "O3", 50, "t3"⟩],
   [⟨"S", "O1", "A", 1⟩, ⟨"S", "O2", "B", 1⟩, ⟨"S", "O3", "A", 1⟩,
    ⟨"S", "O3", "B", 1⟩], []⟩

/-- Concrete data: site MX data interleaved with site TH data that shares
the SKU string "A". -/
def mixedDB : DB :=
  ⟨[⟨"MX", "O1", 10, "t"⟩, ⟨"TH", "O1", 99, "t"⟩],
   [⟨"MX", "O1", "A", 1⟩, ⟨"TH", "O1", "A", 3⟩], [⟨"TH", "A", 5⟩]⟩

/-- Concrete data: the MX rows of `mixedDB` alone. -/
def mxOnlyDB : DB :=
  ⟨[⟨"MX", "O1", 10, "t"⟩], [⟨"MX", "O1", "A", 1⟩], []⟩

/-- A callable that raises a transient connectivity error on every attempt. -/
def transientFail : ℕ → Except String Unit :=
  fun _ => .error "Resource temporarily unavailable"

/-- A callable that raises a non-transient error on every attempt. -/
def hardFail : ℕ → Except String Unit :=
  fun _ => .error "schema mismatch"

/-- The separation property of one conflict bucket: any two distinct entries
carry values at least 0.01 apart. -/
def SepOK (l : List ConflictInfo) : Prop :=
  l.Pairwise (fun a b => 1/100 ≤ |a.value - b.value|)

/-- The separation property over a whole conflicts dict. -/
def ConflictsOK (cs : List (String × List ConflictInfo)) : Prop :=
  ∀ p ∈ cs, SepOK p.2

theorem solveLoop_succ (entries : List OrderEntry) (fuel : ℕ) (st : SolveState) :
    solveLoop entries (fuel + 1) st =
      (let st1 := solvePass entries { st with changed := false };
       if st1.changed then solveLoop entries fuel st1 else st1) := rfl

theorem alookup_mem {α : Type} {k : String} {v : α} {l : List (String × α)}
    (h : alookup k l = some v) : (k, v) ∈ l := by
  induction l with
  | nil => simp [alookup] at h
  | cons p rest ih =>
    obtain ⟨k1, v1⟩ := p
    rw [alookup] at h
    by_cases hk : k1 = k
    · rw [if_pos hk] at h
      obtain rfl := Option.some.inj h
      subst hk
      exact List.mem_cons_self _ _
    · rw [if_neg hk] at h
      exact List.mem_cons_of_mem _ (ih h)

theorem alookup_dinsert_ne {α : Type} {k k1 : String} (hne : k1 ≠ k) (v : α)
    (l : List (String × α)) : alookup k (dinsert k1 v l) = alookup k l := by
  induction l with
  | nil => simp [alookup, dinsert, hne]
  | cons p rest ih =>
    obtain ⟨k2, v2⟩ := p
    rw [dinsert]
    by_cases hk : k2 = k1
    · rw [if_pos hk]
      subst hk
      rw [alookup, alookup, if_neg hne]
      by_cases hk2 : k2 = k
      · exact absurd hk2 hne
      · rw [if_neg hk2]
    · rw [if_neg hk, alookup, alookup]
      by_cases hk2 : k2 = k
      · rw [if_pos hk2, if_pos hk2]
      · rw [if_neg hk2, if_neg hk2, ih]

theorem mem_dinsert {α : Type} {p : String × α} {k : String} {v : α}
    {l : List (String × α)} (h : p ∈ dinsert k v l) : p = (k, v) ∨ p ∈ l := by
  induction l with
  | nil => simpa [dinsert] using h
  | cons q rest ih =>
    obtain ⟨k2, v2⟩ := q
    rw [dinsert] at h
    by_cases hk : k2 = k
    · rw [if_pos hk] at h
      rcases List.mem_cons.1 h with h1 | h1
      · exact Or.inl h1
      · exact Or.inr (List.mem_cons_of_mem _ h1)
    · rw [if_neg hk] at h
      rcases List.mem_cons.1 h with h1 | h1
      · exact Or.inr (by simp [h1])
      · rcases ih h1 with h2 | h2
        · exact Or.inl h2
        · exact Or.inr (List.mem_cons_of_mem _ h2)

theorem mem_unknownItems {det : List (String × ℚ)} {o_items : List ItemRow}
    {s : String} {q : ℤ} (h : (s, q) ∈ unknownItems det o_items) :
    alookup s det = none := by
  simp only [unknownItems, List.mem_map, List.mem_filter] at h
  obtain ⟨it, ⟨_, hnone⟩, heq⟩ := h
  obtain ⟨rfl, rfl⟩ : it.sku = s ∧ it.quantity = q := by
    constructor
    · exact congrArg Prod.fst heq
    · exact congrArg Prod.snd heq
  simpa [Option.isNone_iff_eq_none] using hnone

theorem processZero_determined (st : SolveState) (e : OrderEntry) :
    (processZero st e).determined = st.determined := by
  simp only [processZero]
  split
  · split <;> rfl
  · rfl

theorem processOrder_det_mono {s : String} {v : ℚ} (st : SolveState) (e : OrderEntry)
    (h : alookup s st.determined = some v) :
    alookup s (processOrder st e).determined = some v := by
  unfold processOrder
  split
  · rw [processZero_determined]
    exact h
  · rename_i sku qty heq
    simp only [processOne]
    split
    · split <;> first | exact h | (split <;> exact h)
    · rename_i heq2
      have hne : sku ≠ s := by
        intro hc
        rw [hc, h] at heq2
        exact Option.noConfusion heq2
      simp only [alookup_dinsert_ne hne]
      exact h
  · exact h

theorem solvePass_det_mono {s : String} {v : ℚ} (entries : List OrderEntry) :
    ∀ st : SolveState, alookup s st.determined = some v →
      alookup s (solvePass entries st).determined = some v := by
  induction entries with
  | nil => intro st h; exact h
  | cons e rest ih =>
    intro st h
    have h1 : solvePass (e :: rest) st = solvePass rest (processOrder st e) := rfl
    rw [h1]
    exact ih _ (processOrder_det_mono st e h)

theorem solveLoop_det_mono {s : String} {v : ℚ} (entries : List OrderEntry) :
    ∀ (fuel : ℕ) (st : SolveState), alookup s st.determined = some v →
      alookup s ((solveLoop entries fuel st).determined) = some v := by
  intro fuel
  induction fuel with
  | zero => intro st h; exact h
  | succ n ih =>
    intro st h
    rw [solveLoop_succ]
    have hpass : alookup s ((solvePass entries { st with changed := false }).determined) = some v :=
      solvePass_det_mono entries _ h
    by_cases hc : (solvePass entries { st with changed := false }).changed
    · simp only [hc, if_true]
      exact ih _ hpass
    · simp only [hc, if_false]
      exact hpass

/-- Amended C1, general part: a SKU with a manual override is reported by a
`_solve_logic` pass as determined at exactly the override value — the seeded
value is never overwritten by derivation (the only write to `determined` is
guarded by the key being absent). -/
theorem manual_override_determined (orders : List OrderRow) (items : List ItemRow)
    (manual_prices : List (String × ℚ)) (sku : String) (v : ℚ)
    (h : alookup sku (dictOf manual_prices) = some v) :
    alookup sku (solveLogic orders items manual_prices).determined = some v := by
  have h2 := solveLoop_det_mono (orderEntries orders items) 50
    ⟨dictOf manual_prices, [], true⟩ h
  simpa [solveLogic] using h2

/-- Witness for `manual_override_determined` at the concrete override
`E = 12` with the contradicting order `{E:1} = 10`. -/
theorem manual_override_determined_witness :
    alookup "E" (dictOf [("E", (12:ℚ))]) = some 12 ∧
    alookup "E" (solveLogic [⟨"S", "O1", 10, "t1"⟩] [⟨"S", "O1", "E", 1⟩]
      [("E", 12)]).determined = some 12 :=
  ⟨by norm_num [dictOf, dinsert, alookup],
   manual_override_determined _ _ _ _ _ (by norm_num [dictOf, dinsert, alookup])⟩

/-- C1 (counterexample): with the manual override `E = 12` and the single
order `{E:1} = 10`, the recomputation still reports `E` in the Conflict set
(an `order_mismatch` entry with implied price 10), even though `E` stays
determined at 12 — contradicting the claim that an overridden SKU never
appears in the Conflict set. -/
theorem manual_override_still_conflicts_cex :
    (alookup "E" (solve overrideDB "S").conflicts).isSome = true ∧
    alookup "E" (solve overrideDB "S").determined = some 12 := by
  have hp : solvePass [⟨"O1", 10, [⟨"S", "O1", "E", 1⟩]⟩] ⟨[("E", 12)], [], false⟩ =
      ⟨[("E", 12)], [("E", [⟨10, "O1", 1, "E", 10, 12, "已确定值", "order_mismatch"⟩])],
        false⟩ := by
    norm_num +decide [solvePass, processOrder, processZero, processOne, unknownItems,
      knownSum, alookup, addConflict, dinsert, List.filter]
  have hloop : solveLoop [⟨"O1", 10, [⟨"S", "O1", "E", 1⟩]⟩] 50 ⟨[("E", 12)], [], true⟩ =
      ⟨[("E", 12)], [("E", [⟨10, "O1", 1, "E", 10, 12, "已确定值", "order_mismatch"⟩])],
        false⟩ := by
    rw [show (50:ℕ) = 49 + 1 from rfl, solveLoop_succ]
    norm_num [hp]
  norm_num +decide [solve, get_site_data, solveLogic, orderEntries, dictOf, dinsert,
    List.filter, overrideDB, hloop, alookup, List.dedup_cons_of_not_mem]

/-- C2 (confirmed): inside a pass, an order with exactly one still-unknown
line item derives `remaining / quantity` (0 when the quantity is 0) and
adopts it into `determined`, marking the pass changed.  The claim's
record-a-conflict sub-case cannot arise: the unknown item's SKU has no
entry in `determined` (first conjunct), so the adopt branch always runs and
no existing value is ever overwritten. -/
theorem single_unknown_adopted (st : SolveState) (e : OrderEntry) (sku : String)
    (qty : ℤ) (h : unknownItems st.determined e.o_items = [(sku, qty)]) :
    alookup sku st.determined = none ∧
    processOrder st e =
      { determined :=
          dinsert sku
            (if qty = 0 then 0
             else (e.total - knownSum st.determined e.o_items) / (qty : ℚ))
            st.determined,
        conflicts := st.conflicts,
        changed := true } := by
  have hmem : (sku, qty) ∈ unknownItems st.determined e.o_items := by
    rw [h]
    exact List.mem_singleton_self _
  have hnone := mem_unknownItems hmem
  refine ⟨hnone, ?_⟩
  unfold processOrder
  rw [h]
  show processOne st e sku qty = _
  simp only [processOne, hnone]

/-- Witness for `single_unknown_adopted`: the empty state and the order
`{E:1} = 10`. -/
theorem single_unknown_adopted_witness :
    unknownItems ([] : List (String × ℚ)) [⟨"S", "O1", "E", 1⟩] = [("E", 1)] ∧
    (alookup "E" ([] : List (String × ℚ)) = none ∧
      processOrder ⟨[], [], false⟩ ⟨"O1", 10, [⟨"S", "O1", "E", 1⟩]⟩ =
        { determined :=
            dinsert "E"
              (if (1:ℤ) = 0 then 0
               else ((10:ℚ) - knownSum [] [⟨"S", "O1", "E", 1⟩]) / ((1:ℤ) : ℚ))
              [],
          conflicts := [],
          changed := true }) :=
  ⟨by decide,
   single_unknown_adopted ⟨[], [], false⟩ ⟨"O1", 10, [⟨"S", "O1", "E", 1⟩]⟩ "E" 1
     (by decide)⟩

/-- C3 (confirmed): for the site holding exactly the orders
`{A:1,B:1} = 30` and `{A:1} = 10` and no overrides, the solver determines
`A = 10` and `B = 20` with empty Conflict, underdetermined and constraint
sets. -/
theorem two_order_exact_solve :
    alookup "A" (solve twoOrderDB "S").determined = some 10 ∧
    alookup "B" (solve twoOrderDB "S").determined = some 20 ∧
    (solve twoOrderDB "S").conflicts = [] ∧
    (solve twoOrderDB "S").underdetermined = [] ∧
    (solve twoOrderDB "S").constraints = [] := by
  have hp1 : solvePass
      [⟨"O1", 30, [⟨"S", "O1", "A", 1⟩, ⟨"S", "O1", "B", 1⟩]⟩,
       ⟨"O2", 10, [⟨"S", "O2", "A", 1⟩]⟩] ⟨[], [], false⟩ =
      ⟨[("A", 10)], [], true⟩ := by
    norm_num +decide [solvePass, processOrder, processZero, processOne, unknownItems,
      knownSum, alookup, addConflict, dinsert, List.filter]
  have hp2 : solvePass
      [⟨"O1", 30, [⟨"S", "O1", "A", 1⟩, ⟨"S", "O1", "B", 1⟩]⟩,
       ⟨"O2", 10, [⟨"S", "O2", "A", 1⟩]⟩] ⟨[("A", 10)], [], false⟩ =
      ⟨[("A", 10), ("B", 20)], [], true⟩ := by
    norm_num +decide [solvePass, processOrder, processZero, processOne, unknownItems,
      knownSum, alookup, addConflict, dinsert, List.filter]
  have hp3 : solvePass
      [⟨"O1", 30, [⟨"S", "O1", "A", 1⟩, ⟨"S", "O1", "B", 1⟩]⟩,
       ⟨"O2", 10, [⟨"S", "O2", "A", 1⟩]⟩] ⟨[("A", 10), ("B", 20)], [], false⟩ =
      ⟨[("A", 10), ("B", 20)], [], false⟩ := by
    norm_num +decide [solvePass, processOrder, processZero, processOne, unknownItems,
      knownSum, alookup, addConflict, dinsert, List.filter]
  have hloop : solveLoop
      [⟨"O1", 30, [⟨"S", "O1", "A", 1⟩, ⟨"S", "O1", "B", 1⟩]⟩,
       ⟨"O2", 10, [⟨"S", "O2", "A", 1⟩]⟩] 50 ⟨[], [], true⟩ =
      ⟨[("A", 10), ("B", 20)], [], false⟩ := by
    rw [show (50:ℕ) = 49 + 1 from rfl, solveLoop_succ]
    norm_num [hp1]
    rw [show (49:ℕ) = 48 + 1 from rfl, solveLoop_succ]
    norm_num [hp2]
    rw [show (48:ℕ) = 47 + 1 from rfl, solveLoop_succ]
    norm_num [hp3]
  norm_num +decide [solve, get_site_data, solveLogic, orderEntries, dictOf, dinsert,
    List.filter, twoOrderDB, hloop, alookup, List.dedup_cons_of_mem,
    List.dedup_cons_of_not_mem]

/-- C4 (code_bug): `_solve_logic` initialises `inconsistent_orders` and
returns it as the sixth result component but never appends to it, so it is
empty on every input — in particular on a site where the multi-item order
`{A:1,B:1} = 50` contradicts the known prices `A = 10`, `B = 20` by 20,
which the spec says should be recorded there. -/
theorem inconsistent_never_recorded :
    (∀ (orders : List OrderRow) (items : List ItemRow)
      (manual : List (String × ℚ)), (solveLogic orders items manual).inconsistent = []) ∧
    ((solve mismatchDB "S").inconsistent = [] ∧
      alookup "A" (solve mismatchDB "S").determined = some 10 ∧
      alookup "B" (solve mismatchDB "S").determined = some 20 ∧
      1/100 < |(50:ℚ) - (1 * 10 + 1 * 20)|) := by
  constructor
  · intro orders items manual
    rfl
  · have hp1 : solvePass
        [⟨"O1", 10, [⟨"S", "O1", "A", 1⟩]⟩, ⟨"O2", 20, [⟨"S", "O2", "B", 1⟩]⟩,
         ⟨"O3", 50, [⟨"S", "O3", "A", 1⟩, ⟨"S", "O3", "B", 1⟩]⟩] ⟨[], [], false⟩ =
        ⟨[("A", 10), ("B", 20)], [], true⟩ := by
      norm_num +decide [solvePass, processOrder, processZero, processOne, unknownItems,
        knownSum, alookup, addConflict, dinsert, List.filter]
    have hp2 : solvePass
        [⟨"O1", 10, [⟨"S", "O1", "A", 1⟩]⟩, ⟨"O2", 20, [⟨"S", "O2", "B", 1⟩]⟩,
         ⟨"O3", 50, [⟨"S", "O3", "A", 1⟩, ⟨"S", "O3", "B", 1⟩]⟩]
        ⟨[("A", 10), ("B", 20)], [], false⟩ =
        ⟨[("A", 10), ("B", 20)], [], false⟩ := by
      norm_num +decide [solvePass, processOrder, processZero, processOne, unknownItems,
        knownSum, alookup, addConflict, dinsert, List.filter]
    have hloop : solveLoop
        [⟨"O1", 10, [⟨"S", "O1", "A", 1⟩]⟩, ⟨"O2", 20, [⟨"S", "O2", "B", 1⟩]⟩,
         ⟨"O3", 50, [⟨"S", "O3", "A", 1⟩, ⟨"S", "O3", "B", 1⟩]⟩] 50 ⟨[], [], true⟩ =
        ⟨[("A", 10), ("B", 20)], [], false⟩ := by
      rw [show (50:ℕ) = 49 + 1 from rfl, solveLoop_succ]
      norm_num [hp1]
      rw [show (49:ℕ) = 48 + 1 from rfl, solveLoop_succ]
      norm_num [hp2]
    refine ⟨rfl, ?_, ?_, by norm_num⟩ <;>
      norm_num +decide [solve, get_site_data, solveLogic, orderEntries, dictOf, dinsert,
        List.filter, mismatchDB, hloop, alookup, List.dedup_cons_of_mem,
        List.dedup_cons_of_not_mem]

theorem mkConstraints_of_no_underdet (o : List OrderRow) (i : List ItemRow)
    (det : List (String × ℚ))
    (h : ((i.map (fun it => it.sku)).dedup).filter
      (fun s => (alookup s det).isNone) = []) :
    mkConstraints (orderEntries o i) det = [] := by
  unfold mkConstraints
  rw [List.filterMap_eq_nil_iff]
  intro e he
  simp only [orderEntries, List.mem_map] at he
  obtain ⟨kv, hkv, rfl⟩ := he
  have hfilter : (i.filter (fun it => decide (it.order_id = kv.1))).filter
      (fun it => (alookup it.sku det).isNone) = [] := by
    rw [List.filter_eq_nil_iff]
    intro it hit
    have hin : it ∈ i := (List.mem_filter.1 hit).1
    have hsku : it.sku ∈ (i.map (fun x => x.sku)).dedup :=
      List.mem_dedup.2 (List.mem_map_of_mem _ hin)
    have h2 := List.filter_eq_nil_iff.1 h _ hsku
    simpa using h2
  simp [hfilter]

/-- C7 (confirmed): after the fixpoint, the constraint list is exactly
`mkConstraints` — one entry per order with at least two still-unknown line
items, carrying its (quantity, sku) terms and remaining amount — on every
input (the guard on a nonempty underdetermined set is immaterial: with no
underdetermined SKU no order qualifies); concretely, the lone order
`{C:2,D:1} = 100` leaves both `C` and `D` undetermined and produces the
single constraint `2×C + 1×D = 100`. -/
theorem constraints_per_order :
    (∀ (orders : List OrderRow) (items : List ItemRow) (manual : List (String × ℚ)),
      (solveLogic orders items manual).constraints =
        mkConstraints (orderEntries orders items)
          (solveLogic orders items manual).determined) ∧
    (alookup "C" (solve underDB "S").determined = none ∧
     alookup "D" (solve underDB "S").determined = none ∧
     (solve underDB "S").constraints = [⟨"O1", [(2, "C"), (1, "D")], 100, ["C", "D"]⟩]) := by
  constructor
  · intro orders items manual
    simp only [solveLogic]
    split
    · rename_i hu
      exact (mkConstraints_of_no_underdet orders items _ hu).symm
    · rfl
  · have hp1 : solvePass [⟨"O1", 100, [⟨"S", "O1", "C", 2⟩, ⟨"S", "O1", "D", 1⟩]⟩]
        ⟨[], [], false⟩ = ⟨[], [], false⟩ := by
      norm_num +decide [solvePass, processOrder, processZero, processOne, unknownItems,
        knownSum, alookup, addConflict, dinsert, List.filter]
    have hloop : solveLoop [⟨"O1", 100, [⟨"S", "O1", "C", 2⟩, ⟨"S", "O1", "D", 1⟩]⟩] 50
        ⟨[], [], true⟩ = ⟨[], [], false⟩ := by
      rw [show (50:ℕ) = 49 + 1 from rfl, solveLoop_succ]
      norm_num [hp1]
    refine ⟨?_, ?_, ?_⟩ <;>
      norm_num +decide [solve, get_site_data, solveLogic, orderEntries, dictOf, dinsert,
        List.filter, underDB, hloop, alookup, List.dedup_cons_of_mem,
        List.dedup_cons_of_not_mem, mkConstraints, knownSum]

/-- C5 (counterexample): a submission with two line-item rows for the same
SKU "A" (quantities 1 and 2) yields two stored `order_items` rows for
(site MX, order O1, sku A) — not a single merged row — refuting the claim
that at most one row per (site, order_id, sku) is stored. -/
theorem duplicate_sku_rows_not_merged_cex :
    ¬ (((add_order ⟨[], [], []⟩ "MX" "O1" 30 [⟨"A", 1⟩, ⟨"A", 2⟩] "t").1.order_items.filter
        (fun r => decide (r.site = "MX" ∧ r.order_id = "O1" ∧ r.sku = "A"))).length ≤ 1) := by
  decide

/-- Amended C5: `add_order` stores exactly one `order_items` row per
submitted line-item row with a non-empty SKU, in submission order, with the
SKU upper-cased and trimmed and the row's own quantity; duplicate-SKU rows
are stored separately, never merged. -/
theorem add_order_row_per_item (db : DB) (site order_id : String) (total : ℚ)
    (items : List InputItem) (now : String)
    (h : db.orders.filter (fun r => decide (r.site = site ∧ r.order_id = order_id)) = []) :
    (add_order db site order_id total items now).1.order_items =
      db.order_items ++ (items.filter (fun it => decide (it.sku ≠ ""))).map
        (fun it => ItemRow.mk site order_id (pyStrip (pyUpper it.sku)) it.qty) := by
  simp only [add_order]
  rw [if_neg (not_not_intro h)]
  by_cases hb : (items.filter (fun it => decide (it.sku ≠ ""))).map
      (fun it => ItemRow.mk site order_id (pyStrip (pyUpper it.sku)) it.qty) = []
  · rw [if_neg (not_not_intro hb)]
    rw [hb, List.append_nil]
  · rw [if_pos hb]

/-- Witness for `add_order_row_per_item` on an empty store and the
duplicate-SKU submission. -/
theorem add_order_row_per_item_witness :
    ((⟨[], [], []⟩ : DB).orders.filter
      (fun r => decide (r.site = "MX" ∧ r.order_id = "O1")) = []) ∧
    (add_order ⟨[], [], []⟩ "MX" "O1" 30 [⟨"A", 1⟩, ⟨"A", 2⟩] "t").1.order_items =
      ([] : List ItemRow) ++
        (([⟨"A", 1⟩, ⟨"A", 2⟩] : List InputItem).filter
          (fun it => decide (it.sku ≠ ""))).map
          (fun it => ItemRow.mk "MX" "O1" (pyStrip (pyUpper it.sku)) it.qty) :=
  ⟨rfl, add_order_row_per_item _ _ _ _ _ _ rfl⟩

/-- C6 (confirmed): `add_order` rejects a submission whose (site, order_id)
pair already has a stored order row, returning the duplicate-order error and
leaving the store untouched; otherwise it appends the order row and one
line-item row per non-empty-SKU item and reports success. -/
theorem add_order_duplicate_check (db : DB) (site order_id : String) (total : ℚ)
    (items : List InputItem) (now : String) :
    (db.orders.filter (fun r => decide (r.site = site ∧ r.order_id = order_id)) ≠ [] →
      add_order db site order_id total items now = (db, false, "订单号已存在")) ∧
    (db.orders.filter (fun r => decide (r.site = site ∧ r.order_id = order_id)) = [] →
      add_order db site order_id total items now =
        ({ orders := db.orders ++ [⟨site, order_id, total, now⟩],
           order_items := db.order_items ++
             (items.filter (fun it => decide (it.sku ≠ ""))).map
               (fun it => ItemRow.mk site order_id (pyStrip (pyUpper it.sku)) it.qty),
           manual_prices := db.manual_prices }, true, "保存成功")) := by
  constructor
  · intro h
    simp only [add_order]
    rw [if_pos h]
  · intro h
    simp only [add_order]
    rw [if_neg (not_not_intro h)]
    by_cases hb : (items.filter (fun it => decide (it.sku ≠ ""))).map
        (fun it => ItemRow.mk site order_id (pyStrip (pyUpper it.sku)) it.qty) = []
    · rw [if_neg (not_not_intro hb)]
      rw [hb, List.append_nil]
    · rw [if_pos hb]

/-- Witness for `add_order_duplicate_check`: a duplicate submission is
rejected without a second row; a fresh submission is stored. -/
theorem add_order_duplicate_check_witness :
    (add_order ⟨[⟨"MX", "O1", 30, "t"⟩], [], []⟩ "MX" "O1" 5 [⟨"A", 1⟩] "u" =
      (⟨[⟨"MX", "O1", 30, "t"⟩], [], []⟩, false, "订单号已存在")) ∧
    (add_order (⟨[], [], []⟩ : DB) "MX" "O1" 30 [⟨"A", 1⟩] "t" =
      ({ orders := [] ++ [⟨"MX", "O1", 30, "t"⟩],
         order_items := [] ++
           (([⟨"A", 1⟩] : List InputItem).filter (fun it => decide (it.sku ≠ ""))).map
             (fun it => ItemRow.mk "MX" "O1" (pyStrip (pyUpper it.sku)) it.qty),
         manual_prices := [] }, true, "保存成功")) :=
  ⟨(add_order_duplicate_check _ _ _ _ _ _).1 (by decide),
   (add_order_duplicate_check _ _ _ _ _ _).2 rfl⟩

theorem retryAux_succ {α : Type} (f : ℕ → Except String α) (d : ℚ) (maxR attempt fuel : ℕ) :
    retryAux f d maxR attempt (fuel + 1) =
      (match f attempt with
       | .ok a => ⟨some (.ok a), [], 1⟩
       | .error e =>
         if isTransient e && decide (attempt < maxR - 1) then
           let rest := retryAux f d maxR (attempt + 1) fuel
           ⟨rest.result, d * ((attempt : ℚ) + 1) :: rest.sleeps, rest.attempts + 1⟩
         else ⟨some (.error e), [], 1⟩) := rfl

/-- C8 (counterexample): the retry wrapper never touches the cached client
handle — after a persistently transient failure exhausts all 3 attempts, the
handle is still the original one (`SupabaseManager.reset` is never invoked),
refuting the claim that the handle is discarded. -/
theorem retry_does_not_reset_client_cex :
    (wrappedCall ⟨some 0⟩ 3 2 transientFail).1.client ≠ none := by
  simp [wrappedCall]

/-- Amended C8: a call whose every attempt raises a transient error is tried
exactly 3 times with sleeps `d*1` then `d*2` and the third attempt's error
propagates; a non-transient first error propagates immediately after 1
attempt with no sleep; in both cases the cached client handle is left
unchanged (it is not discarded — `SupabaseManager.reset` has no caller). -/
theorem retry_three_attempts {α : Type} (mgr : MgrState) (d : ℚ)
    (f : ℕ → Except String α) :
    ((∀ n, ∃ msg, f n = .error msg ∧ isTransient msg = true) →
      (wrappedCall mgr 3 d f).1 = mgr ∧
      (wrappedCall mgr 3 d f).2.attempts = 3 ∧
      (wrappedCall mgr 3 d f).2.sleeps = [d * 1, d * 2] ∧
      ∃ msg, f 2 = .error msg ∧
        (wrappedCall mgr 3 d f).2.result = some (.error msg)) ∧
    (∀ msg, f 0 = .error msg → isTransient msg = false →
      (wrappedCall mgr 3 d f).1 = mgr ∧
      (wrappedCall mgr 3 d f).2.attempts = 1 ∧
      (wrappedCall mgr 3 d f).2.sleeps = [] ∧
      (wrappedCall mgr 3 d f).2.result = some (.error msg)) := by
  constructor
  · intro h
    obtain ⟨m0, hf0, ht0⟩ := h 0
    obtain ⟨m1, hf1, ht1⟩ := h 1
    obtain ⟨m2, hf2, ht2⟩ := h 2
    have h2 : retryAux f d 3 2 1 = ⟨some (.error m2), [], 1⟩ := by
      rw [show (1:ℕ) = 0 + 1 from rfl, retryAux_succ, hf2]
      simp [ht2]
    have h1 : retryAux f d 3 1 2 = ⟨some (.error m2), [d * ((1:ℚ) + 1)], 2⟩ := by
      rw [show (2:ℕ) = 1 + 1 from rfl, retryAux_succ, hf1]
      simp [ht1, h2]
    have h0 : retryAux f d 3 0 3 = ⟨some (.error m2),
        [d * ((0:ℚ) + 1), d * ((1:ℚ) + 1)], 3⟩ := by
      rw [show (3:ℕ) = 2 + 1 from rfl, retryAux_succ, hf0]
      simp [ht0, h1]
    refine ⟨rfl, ?_, ?_, m2, hf2, ?_⟩ <;>
      norm_num [wrappedCall, retry_on_error, h0]
  · intro msg hf0 hns
    have h0 : retryAux f d 3 0 3 = ⟨some (.error msg), [], 1⟩ := by
      rw [show (3:ℕ) = 2 + 1 from rfl, retryAux_succ, hf0]
      simp [hns]
    refine ⟨rfl, ?_, ?_, ?_⟩ <;>
      norm_num [wrappedCall, retry_on_error, h0]

/-- Witness for `retry_three_attempts` with a persistently transient failure
and a non-transient failure, base delay 2. -/
theorem retry_three_attempts_witness :
    ((wrappedCall ⟨some 0⟩ 3 2 transientFail).1 = ⟨some 0⟩ ∧
      (wrappedCall ⟨some 0⟩ 3 2 transientFail).2.attempts = 3 ∧
      (wrappedCall ⟨some 0⟩ 3 2 transientFail).2.sleeps = [(2:ℚ) * 1, 2 * 2] ∧
      ∃ msg, transientFail 2 = .error msg ∧
        (wrappedCall ⟨some 0⟩ 3 2 transientFail).2.result = some (.error msg)) ∧
    ((wrappedCall ⟨some 0⟩ 3 2 hardFail).1 = ⟨some 0⟩ ∧
      (wrappedCall ⟨some 0⟩ 3 2 hardFail).2.attempts = 1 ∧
      (wrappedCall ⟨some 0⟩ 3 2 hardFail).2.sleeps = [] ∧
      (wrappedCall ⟨some 0⟩ 3 2 hardFail).2.result =
        some (.error "schema mismatch")) :=
  ⟨(retry_three_attempts ⟨some 0⟩ 2 transientFail).1
      (fun _ => ⟨"Resource temporarily unavailable", rfl, by decide⟩),
   (retry_three_attempts ⟨some 0⟩ 2 hardFail).2 "schema mismatch" rfl (by decide)⟩

/-- C9 (confirmed): the result of `solve` for a site depends only on the
rows stored under that site — two stores agreeing on the site's orders,
items and manual rows produce identical results, so adding, changing or
removing other sites' data (even with identical SKU strings) cannot
influence it. -/
theorem solve_site_noninterference (db1 db2 : DB) (site : String)
    (ho : db1.orders.filter (fun r => decide (r.site = site)) =
          db2.orders.filter (fun r => decide (r.site = site)))
    (hi : db1.order_items.filter (fun r => decide (r.site = site)) =
          db2.order_items.filter (fun r => decide (r.site = site)))
    (hm : db1.manual_prices.filter (fun r => decide (r.site = site)) =
          db2.manual_prices.filter (fun r => decide (r.site = site))) :
    solve db1 site = solve db2 site := by
  have h : get_site_data db1 site = get_site_data db2 site := by
    simp [get_site_data, ho, hi, hm]
  simp [solve, h]

/-- Witness for `solve_site_noninterference`: adding TH-site rows (with the
same SKU string "A") to an MX-only store leaves the MX result unchanged. -/
theorem solve_site_noninterference_witness :
    (mixedDB.orders.filter (fun r => decide (r.site = "MX")) =
      mxOnlyDB.orders.filter (fun r => decide (r.site = "MX"))) ∧
    (mixedDB.order_items.filter (fun r => decide (r.site = "MX")) =
      mxOnlyDB.order_items.filter (fun r => decide (r.site = "MX"))) ∧
    (mixedDB.manual_prices.filter (fun r => decide (r.site = "MX")) =
      mxOnlyDB.manual_prices.filter (fun r => decide (r.site = "MX"))) ∧
    solve mixedDB "MX" = solve mxOnlyDB "MX" :=
  ⟨rfl, rfl, rfl, solve_site_noninterference _ _ _ rfl rfl rfl⟩

theorem addConflict_ok (cs : List (String × List ConflictInfo)) (sku : String)
    (c : ConflictInfo) (h : ConflictsOK cs) : ConflictsOK (addConflict cs sku c) := by
  have h1 : ConflictsOK (if (alookup sku cs).isSome then cs else dinsert sku [] cs) := by
    split
    · exact h
    · intro p hp
      rcases mem_dinsert hp with h2 | h2
      · rw [h2]
        exact List.Pairwise.nil
      · exact h p h2
  set cs1 := if (alookup sku cs).isSome then cs else dinsert sku [] cs with hcs1
  show ConflictsOK
    (if ((alookup sku cs1).getD []).any (fun e => decide (|e.value - c.value| < 1/100))
     then cs1 else dinsert sku (((alookup sku cs1).getD []) ++ [c]) cs1)
  split
  · exact h1
  · rename_i hguard
    intro p hp
    rcases mem_dinsert hp with h2 | h2
    · rw [h2]
      show SepOK ((alookup sku cs1).getD [] ++ [c])
      have hold : SepOK ((alookup sku cs1).getD []) := by
        rcases halk : alookup sku cs1 with _ | bucket
        · exact List.Pairwise.nil
        · exact h1 _ (alookup_mem halk)
      have hall : ∀ e ∈ (alookup sku cs1).getD [], ¬ (|e.value - c.value| < 1/100) := by
        intro e he hlt
        apply hguard
        rw [List.any_eq_true]
        exact ⟨e, he, by simpa using hlt⟩
      unfold SepOK
      rw [List.pairwise_append]
      refine ⟨hold, List.pairwise_singleton _ _, ?_⟩
      intro a ha b hb
      have hb2 : b = c := by simpa using hb
      subst hb2
      exact le_of_not_lt (hall a ha)
    · exact h1 p h2

theorem processOrder_conf_ok (st : SolveState) (e : OrderEntry)
    (h : ConflictsOK st.conflicts) : ConflictsOK (processOrder st e).conflicts := by
  unfold processOrder
  split
  · simp only [processZero]
    (repeat' split) <;> first | exact addConflict_ok _ _ _ h | exact h
  · simp only [processOne]
    (repeat' split) <;> first | exact addConflict_ok _ _ _ h | exact h
  · exact h

theorem solvePass_conf_ok (entries : List OrderEntry) :
    ∀ st : SolveState, ConflictsOK st.conflicts →
      ConflictsOK (solvePass entries st).conflicts := by
  induction entries with
  | nil => intro st h; exact h
  | cons e rest ih =>
    intro st h
    have h1 : solvePass (e :: rest) st = solvePass rest (processOrder st e) := rfl
    rw [h1]
    exact ih _ (processOrder_conf_ok st e h)

theorem solveLoop_conf_ok (entries : List OrderEntry) :
    ∀ (fuel : ℕ) (st : SolveState), ConflictsOK st.conflicts →
      ConflictsOK ((solveLoop entries fuel st).conflicts) := by
  intro fuel
  induction fuel with
  | zero => intro st h; exact h
  | succ n ih =>
    intro st h
    rw [solveLoop_succ]
    have hpass : ConflictsOK ((solvePass entries { st with changed := false }).conflicts) :=
      solvePass_conf_ok entries _ h
    by_cases hc : (solvePass entries { st with changed := false }).changed
    · simp only [hc, if_true]
      exact ih _ hpass
    · simp only [hc, if_false]
      exact hpass

/-- Amended C10: in the Conflict map the solver returns, the values of any
two distinct entries of one SKU's list differ by AT LEAST 0.01 (the guard
`abs(. - .) < 0.01` admits the boundary case, so "more than 0.01" fails
exactly at a difference of 0.01). -/
theorem conflict_values_pairwise_sep (orders : List OrderRow) (items : List ItemRow)
    (manual : List (String × ℚ)) (sku : String) (l : List ConflictInfo)
    (h : alookup sku (solveLogic orders items manual).conflicts = some l) :
    l.Pairwise (fun a b => 1/100 ≤ |a.value - b.value|) := by
  have h0 : ConflictsOK ([] : List (String × List ConflictInfo)) := by
    intro p hp
    exact absurd hp (List.not_mem_nil p)
  have hloop : ConflictsOK ((solveLoop (orderEntries orders items) 50
      ⟨dictOf manual, [], true⟩).conflicts) := solveLoop_conf_ok _ _ _ h0
  have hall : ConflictsOK (solveLogic orders items manual).conflicts := by
    simpa [solveLogic] using hloop
  exact hall (sku, l) (alookup_mem h)

/-- Witness for `conflict_values_pairwise_sep`: the override `E = 12` with
orders `{E:1} = 10` and `{E:1} = 10.01` yields the conflict bucket
`[10, 10.01]`, whose entries are exactly 0.01 apart. -/
theorem conflict_values_pairwise_sep_witness :
    alookup "E" (solveLogic [⟨"S", "O1", 10, "t1"⟩, ⟨"S", "O2", 1001/100, "t2"⟩]
        [⟨"S", "O1", "E", 1⟩, ⟨"S", "O2", "E", 1⟩] [("E", 12)]).conflicts =
      some [⟨10, "O1", 1, "E", 10, 12, "已确定值", "order_mismatch"⟩,
            ⟨1001/100, "O2", 1, "E", 1001/100, 12, "已确定值", "order_mismatch"⟩] ∧
    List.Pairwise (fun (a : ConflictInfo) (b : ConflictInfo) => 1/100 ≤ |a.value - b.value|)
      [⟨10, "O1", 1, "E", 10, 12, "已确定值", "order_mismatch"⟩,
       ⟨1001/100, "O2", 1, "E", 1001/100, 12, "已确定值", "order_mismatch"⟩] := by
  have hp : solvePass
      [⟨"O1", 10, [⟨"S", "O1", "E", 1⟩]⟩, ⟨"O2", 1001/100, [⟨"S", "O2", "E", 1⟩]⟩]
      ⟨[("E", 12)], [], false⟩ =
      ⟨[("E", 12)],
       [("E", [⟨10, "O1", 1, "E", 10, 12, "已确定值", "order_mismatch"⟩,
               ⟨1001/100, "O2", 1, "E", 1001/100, 12, "已确定值", "order_mismatch"⟩])],
       false⟩ := by
    norm_num +decide [solvePass, processOrder, processZero, processOne, unknownItems,
      knownSum, alookup, addConflict, dinsert, List.filter]
    norm_num [abs_of_pos]
  have hloop : solveLoop
      [⟨"O1", 10, [⟨"S", "O1", "E", 1⟩]⟩, ⟨"O2", 1001/100, [⟨"S", "O2", "E", 1⟩]⟩] 50
      ⟨[("E", 12)], [], true⟩ = ⟨[("E", 12)],
       [("E", [⟨10, "O1", 1, "E", 10, 12, "已确定值", "order_mismatch"⟩,
               ⟨1001/100, "O2", 1, "E", 1001/100, 12, "已确定值", "order_mismatch"⟩])],
       false⟩ := by
    rw [show (50:ℕ) = 49 + 1 from rfl, solveLoop_succ]
    norm_num [hp]
  have h : alookup "E" (solveLogic [⟨"S", "O1", 10, "t1"⟩, ⟨"S", "O2", 1001/100, "t2"⟩]
      [⟨"S", "O1", "E", 1⟩, ⟨"S", "O2", "E", 1⟩] [("E", 12)]).conflicts =
      some [⟨10, "O1", 1, "E", 10, 12, "已确定值", "order_mismatch"⟩,
            ⟨1001/100, "O2", 1, "E", 1001/100, 12, "已确定值", "order_mismatch"⟩] := by
    norm_num +decide [solveLogic, orderEntries, dictOf, dinsert, List.filter, hloop, alookup]
  exact ⟨h, conflict_values_pairwise_sep _ _ _ _ _ h⟩

/-- C10 (counterexample): on `toleranceDB` the conflict bucket for `E` holds
the two values 10 and 10.01, which differ by exactly 0.01 — not by more than
0.01 as the claim states (the recording guard uses a strict `< 0.01` test,
so the boundary case is admitted). -/
theorem conflict_values_exact_tolerance_cex :
    (((alookup "E" (solve toleranceDB "S").conflicts).getD []).map
      (fun c => c.value)) = [10, 1001/100] ∧
    ¬ (((alookup "E" (solve toleranceDB "S").conflicts).getD []).Pairwise
      (fun a b => 1/100 < |a.value - b.value|)) := by
  have hp : solvePass
      [⟨"O1", 10, [⟨"S", "O1", "E", 1⟩]⟩, ⟨"O2", 1001/100, [⟨"S", "O2", "E", 1⟩]⟩]
      ⟨[("E", 12)], [], false⟩ =
      ⟨[("E", 12)],
       [("E", [⟨10, "O1", 1, "E", 10, 12, "已确定值", "order_mismatch"⟩,
               ⟨1001/100, "O2", 1, "E", 1001/100, 12, "已确定值", "order_mismatch"⟩])],
       false⟩ := by
    norm_num +decide [solvePass, processOrder, processZero, processOne, unknownItems,
      knownSum, alookup, addConflict, dinsert, List.filter]
    norm_num [abs_of_pos]
  have hloop : solveLoop
      [⟨"O1", 10, [⟨"S", "O1", "E", 1⟩]⟩, ⟨"O2", 1001/100, [⟨"S", "O2", "E", 1⟩]⟩] 50
      ⟨[("E", 12)], [], true⟩ = ⟨[("E", 12)],
       [("E", [⟨10, "O1", 1, "E", 10, 12, "已确定值", "order_mismatch"⟩,
               ⟨1001/100, "O2", 1, "E", 1001/100, 12, "已确定值", "order_mismatch"⟩])],
       false⟩ := by
    rw [show (50:ℕ) = 49 + 1 from rfl, solveLoop_succ]
    norm_num [hp]
  constructor <;>
    norm_num +decide [solve, get_site_data, solveLogic, orderEntries, dictOf, dinsert,
      List.filter, toleranceDB, hloop, alookup, List.dedup_cons_of_mem,
      List.dedup_cons_of_not_mem, List.pairwise_cons, abs_of_pos]

end ShopeeTool
